import Mathlib

/-!
Verification of the ARGO profile ingestion pipeline
(`src/data_pipeline/netcdf_processor.py`, `src/data_pipeline/data_ingestion.py`).

The embedding models Python floats that matter to the pipeline as exact
rationals; a value that may be NaN or Python `None` is a `PyVal`.  Machine
rounding plays no role in any claim: every branch in the source compares
ordered quantities, so the rational model is faithful on the inputs the
claims quantify over.
-/

/-- A Python value as the pipeline sees it: a finite float (`num`), the
floating-point NaN sentinel (`nan`), or an explicit absence marker, i.e.
Python `None` after sanitization (`absent`).  `pd.isna` is true on `nan`
and on `absent` and false on `num`. -/
inductive PyVal where
  | num (q : ℚ)
  | nan
  | absent
deriving DecidableEq, Repr

/-- `pd.isna` on a scalar: true exactly on NaN and on the absence marker. -/
def PyVal.isna : PyVal → Bool
  | PyVal.num _ => false
  | PyVal.nan => true
  | PyVal.absent => true

/-- `np.isnan` on an element of a converted float array (where `absent`
cannot occur; on `absent` the conversion itself raises beforehand). -/
def isnanB : PyVal → Bool
  | PyVal.nan => true
  | _ => false

/-- Numeric payload of a `PyVal`; junk (0) off the `num` constructor, used
only where a validity mask has already excluded `nan` and `absent`. -/
def toQ : PyVal → ℚ
  | PyVal.num q => q
  | _ => 0

/-! ## Region classifier (`_determine_ocean_region`, netcdf_processor.py lines 132-150) -/

/-- Lines 135-136: `if lon < 0: lon += 360`. -/
def normalizeLon (lon : ℚ) : ℚ :=
  if lon < 0 then lon + 360 else lon

/-- Lines 138-150: the `if/elif` cascade on the already-normalized
longitude, in source order: Indian, Pacific, Atlantic, Southern, Arctic,
Unknown. -/
def regionCascade (lat lon : ℚ) : String :=
  if -60 ≤ lat ∧ lat ≤ 30 ∧ 20 ≤ lon ∧ lon ≤ 120 then "Indian Ocean"
  else if (120 ≤ lon ∧ lon ≤ 290) ∨ (290 ≤ lon ∧ lon ≤ 360) ∨ (0 ≤ lon ∧ lon ≤ 70) then
    "Pacific Ocean"
  else if 290 ≤ lon ∨ lon ≤ 20 then "Atlantic Ocean"
  else if lat < -60 then "Southern Ocean"
  else if lat > 66 then "Arctic Ocean"
  else "Unknown"

/-- `_determine_ocean_region(lat, lon)`: normalize a negative longitude by
adding 360, then run the cascade. -/
def determine_ocean_region (lat lon : ℚ) : String :=
  regionCascade lat (normalizeLon lon)

/-- The six labels the classifier can produce. -/
def oceanLabels : List String :=
  ["Indian Ocean", "Pacific Ocean", "Atlantic Ocean", "Southern Ocean",
   "Arctic Ocean", "Unknown"]

/-- C1: for every latitude in [-90,90] and longitude in [-180,180] the
classifier is a total function (determinism is function-hood in the
embedding): it normalizes a negative longitude by adding 360, runs the
fixed cascade Indian, Pacific, Atlantic, Southern, Arctic, Unknown in that
order, and returns exactly one of the six labels. -/
theorem determine_ocean_region_total (lat lon : ℚ)
    (hlat₁ : -90 ≤ lat) (hlat₂ : lat ≤ 90)
    (hlon₁ : -180 ≤ lon) (hlon₂ : lon ≤ 180) :
    determine_ocean_region lat lon ∈ oceanLabels := by
  unfold determine_ocean_region regionCascade oceanLabels
  split_ifs <;> simp

/-- Witness for C1 at (lat, lon) = (10, 75). -/
theorem determine_ocean_region_total_witness :
    determine_ocean_region 10 75 ∈ oceanLabels :=
  determine_ocean_region_total 10 75 (by norm_num) (by norm_num)
    (by norm_num) (by norm_num)

/-- C10: on the whole valid coordinate box the Atlantic branch is dead
code.  Once the longitude is normalized into [0, 360), any longitude
satisfying the Atlantic test (lon ≥ 290 or lon ≤ 20) already satisfies the
Pacific test ([120,290] ∪ [290,360] ∪ [0,70]) evaluated earlier, so the
classifier never returns the Atlantic label. -/
theorem determine_ocean_region_never_atlantic (lat lon : ℚ)
    (hlat₁ : -90 ≤ lat) (hlat₂ : lat ≤ 90)
    (hlon₁ : -180 ≤ lon) (hlon₂ : lon ≤ 180) :
    determine_ocean_region lat lon ≠ "Atlantic Ocean" := by
  have hbounds : 0 ≤ normalizeLon lon ∧ normalizeLon lon < 360 := by
    unfold normalizeLon
    split_ifs with h <;> constructor <;> linarith
  unfold determine_ocean_region regionCascade
  split_ifs with h1 h2 h3 <;> try simp
  rcases h3 with h | h
  · exact h2 (Or.inr (Or.inl ⟨h, le_of_lt hbounds.2⟩))
  · exact h2 (Or.inr (Or.inr ⟨hbounds.1, by linarith⟩))

/-- Witness for C10 at (lat, lon) = (40, -30): a mid-Atlantic coordinate
still comes back labelled Pacific, not Atlantic. -/
theorem determine_ocean_region_never_atlantic_witness :
    determine_ocean_region 40 (-30) ≠ "Atlantic Ocean" :=
  determine_ocean_region_never_atlantic 40 (-30) (by norm_num) (by norm_num)
    (by norm_num) (by norm_num)

/-! ## Mixed-layer depth (`_calculate_mld`, netcdf_processor.py lines 118-130) -/

/-- Lines 126-128: the `for` loop over `zip(temperature, pressure)`; the
first pair whose temperature departs from the surface temperature by more
than the threshold (default 0.2 = 1/5) yields its depth. -/
def mldScan (surface_temp : ℚ) : List (ℚ × ℚ) → Option ℚ
  | [] => Option.none
  | (temp, depth) :: rest =>
    if 1/5 < |temp - surface_temp| then some depth else mldScan surface_temp rest

/-- `_calculate_mld(temperature, pressure)` with the default threshold 0.2:
return 0 when fewer than 2 samples, otherwise scan from the surface sample
and fall back to `pressure[-1]` (or 0 when `pressure` is empty). -/
def calculate_mld (temperature pressure : List ℚ) : ℚ :=
  if temperature.length < 2 then 0
  else
    match temperature with
    | [] => 0
    | surface_temp :: _ =>
      match mldScan surface_temp (temperature.zip pressure) with
      | some depth => depth
      | Option.none => (pressure.getLast?).getD 0

theorem mldScan_eq_none_iff (t0 : ℚ) (L : List (ℚ × ℚ)) :
    mldScan t0 L = Option.none ↔ ∀ p ∈ L, |p.1 - t0| ≤ 1/5 := by
  induction L with
  | nil => simp [mldScan]
  | cons hd tl ih =>
    obtain ⟨t, d⟩ := hd
    by_cases h : (1/5 : ℚ) < |t - t0|
    · simp only [mldScan, if_pos h]
      constructor
      · intro hcontr; exact absurd hcontr (by simp)
      · intro hall
        exact absurd (hall (t, d) (List.mem_cons_self _ _)) (by simpa using h)
    · simp only [mldScan, if_neg h, ih]
      constructor
      · intro hall p hp
        rcases List.mem_cons.mp hp with rfl | hmem
        · simpa using not_lt.mp h
        · exact hall p hmem
      · intro hall p hp; exact hall p (List.mem_cons_of_mem _ hp)

theorem mldScan_eq_some_of_first_hit (t0 : ℚ) (L : List (ℚ × ℚ)) (i : ℕ)
    (hi : i < L.length)
    (hbefore : ∀ j (hj : j < L.length), j < i → |(L[j]).1 - t0| ≤ 1/5)
    (hhit : 1/5 < |(L[i]).1 - t0|) :
    mldScan t0 L = some (L[i]).2 := by
  induction L generalizing i with
  | nil => simp at hi
  | cons hd tl ih =>
    obtain ⟨t, d⟩ := hd
    cases i with
    | zero =>
      simp only [List.getElem_cons_zero] at hhit ⊢
      simp only [mldScan]
      rw [if_pos hhit]
    | succ n =>
      have ht : |t - t0| ≤ 1/5 := by
        simpa using hbefore 0 (Nat.succ_pos _) (Nat.succ_pos _)
      have hn : n < tl.length := by simpa using hi
      simp only [mldScan, if_neg (not_lt.mpr ht), List.getElem_cons_succ] at *
      exact ih n hn
        (fun j hj hjn => by simpa using hbefore (j + 1) (by omega) (by omega))
        hhit

theorem calculate_mld_cons (t0 : ℚ) (T' P : List ℚ) (h1 : 1 ≤ T'.length) :
    calculate_mld (t0 :: T') P =
      match mldScan t0 ((t0 :: T').zip P) with
      | some depth => depth
      | Option.none => (P.getLast?).getD 0 := by
  unfold calculate_mld
  rw [if_neg (by simp only [List.length_cons]; omega)]

theorem sorted_le_getLast {P : List ℚ} (hs : P.Sorted (· ≤ ·)) (hne : P ≠ []) :
    ∀ x ∈ P, x ≤ P.getLast hne := by
  induction P with
  | nil => simp at hne
  | cons a l ih =>
    intro x hx
    rcases eq_or_ne l [] with rfl | hl
    · simp at hx; simp [hx, List.getLast]
    · rw [List.getLast_cons hl]
      rcases List.mem_cons.mp hx with rfl | hxl
      · exact List.rel_of_sorted_cons hs _ (List.getLast_mem hl)
      · exact ih hs.of_cons hl x hxl

/-- C2: for equal-length valid temperature and pressure sequences, in
increasing-pressure order, `_calculate_mld` returns `pressure[i]` at the
first index `i` with `|temperature[i] - temperature[0]| > 0.2`; the
deepest pressure sample (the maximum, attained in the list) when no index
crosses the threshold — in particular for a constant-temperature profile;
and 0 when fewer than 2 samples exist. -/
theorem calculate_mld_spec (T P : List ℚ) (hlen : T.length = P.length)
    (hsort : P.Sorted (· ≤ ·)) :
    (T.length < 2 → calculate_mld T P = 0) ∧
    (∀ (i : ℕ) (hiT : i < T.length) (hiP : i < P.length),
      (1/5 : ℚ) < |T[i] - T[0]| →
      (∀ (j : ℕ) (hjT : j < T.length), j < i → |T[j] - T[0]| ≤ 1/5) →
      calculate_mld T P = P[i]) ∧
    (2 ≤ T.length → (∀ (i : ℕ) (hiT : i < T.length), |T[i] - T[0]| ≤ 1/5) →
      calculate_mld T P ∈ P ∧ ∀ x ∈ P, x ≤ calculate_mld T P) ∧
    (2 ≤ T.length → (∀ x ∈ T, ∀ y ∈ T, x = y) →
      calculate_mld T P ∈ P ∧ ∀ x ∈ P, x ≤ calculate_mld T P) := by
  have hzlen : (T.zip P).length = T.length := by
    simp [List.length_zip, hlen]
  have hznE : ∀ (i : ℕ) (hiT : i < T.length) (hiP : i < P.length)
      (hiz : i < (T.zip P).length), (T.zip P)[i] = (T[i], P[i]) := by
    intro i hiT hiP hiz
    exact List.getElem_zip
  refine ⟨fun hlt => by simp [calculate_mld, hlt], ?_, ?_, ?_⟩
  · intro i hiT hiP hhit hbefore
    have h2 : ¬ T.length < 2 := by
      intro hlt
      have hi0 : i = 0 := by omega
      subst hi0
      have habs : |T[0] - T[0]| = 0 := by simp
      rw [habs] at hhit
      norm_num at hhit
    obtain ⟨t0, T', rfl⟩ : ∃ t0 T', T = t0 :: T' := by
      cases T with
      | nil => simp at hiT
      | cons a l => exact ⟨a, l, rfl⟩
    have hT1 : 1 ≤ T'.length := by
      simp only [List.length_cons] at h2; omega
    have hiz : i < ((t0 :: T').zip P).length := by
      rw [hzlen]; exact hiT
    have hscan : mldScan t0 ((t0 :: T').zip P) = some ((t0 :: T')[i], P[i]).2 := by
      rw [← hznE i hiT hiP hiz]
      refine mldScan_eq_some_of_first_hit t0 _ i hiz ?_ ?_
      · intro j hjz hji
        have hjT : j < (t0 :: T').length := by rw [hzlen] at hjz; exact hjz
        have hjP : j < P.length := by rw [← hlen]; exact hjT
        rw [hznE j hjT hjP hjz]
        simpa using hbefore j hjT hji
      · rw [hznE i hiT hiP hiz]
        simpa using hhit
    rw [calculate_mld_cons t0 T' P hT1, hscan]
  · intro hge hflat
    obtain ⟨t0, T', rfl⟩ : ∃ t0 T', T = t0 :: T' := by
      cases T with
      | nil => simp at hge
      | cons a l => exact ⟨a, l, rfl⟩
    have hT1 : 1 ≤ T'.length := by
      simp only [List.length_cons] at hge; omega
    have hscan : mldScan t0 ((t0 :: T').zip P) = Option.none := by
      rw [mldScan_eq_none_iff]
      intro p hp
      obtain ⟨k, hk, hkp⟩ := List.mem_iff_getElem.mp hp
      have hkT : k < (t0 :: T').length := by rw [hzlen] at hk; exact hk
      have hkP : k < P.length := by rw [← hlen]; exact hkT
      rw [hznE k hkT hkP hk] at hkp
      have := hflat k hkT
      simpa [← hkp] using this
    have hPne : P ≠ [] := by
      intro hP; rw [hP] at hlen; simp at hlen
    have hres : calculate_mld (t0 :: T') P = P.getLast hPne := by
      rw [calculate_mld_cons t0 T' P hT1, hscan,
        List.getLast?_eq_getLast_of_ne_nil hPne]
      rfl
    rw [hres]
    exact ⟨List.getLast_mem hPne, sorted_le_getLast hsort hPne⟩
  · intro hge hconst
    obtain ⟨t0, T', rfl⟩ : ∃ t0 T', T = t0 :: T' := by
      cases T with
      | nil => simp at hge
      | cons a l => exact ⟨a, l, rfl⟩
    have hT1 : 1 ≤ T'.length := by
      simp only [List.length_cons] at hge; omega
    have hscan : mldScan t0 ((t0 :: T').zip P) = Option.none := by
      rw [mldScan_eq_none_iff]
      intro p hp
      have hp1 : p.1 ∈ t0 :: T' := (List.of_mem_zip hp).1
      have : p.1 = t0 := hconst p.1 hp1 t0 (List.mem_cons_self _ _)
      simp [this]
    have hPne : P ≠ [] := by
      intro hP; rw [hP] at hlen; simp at hlen
    have hres : calculate_mld (t0 :: T') P = P.getLast hPne := by
      rw [calculate_mld_cons t0 T' P hT1, hscan,
        List.getLast?_eq_getLast_of_ne_nil hPne]
      rfl
    rw [hres]
    exact ⟨List.getLast_mem hPne, sorted_le_getLast hsort hPne⟩

/-- Witness for C2 at T = [10, 10.1, 12, 13], P = [5, 15, 30, 60]: the
first threshold crossing is at index 2, so the mixed-layer depth is 30. -/
theorem calculate_mld_spec_witness :
    calculate_mld [10, 101/10, 12, 13] [(5 : ℚ), 15, 30, 60] = 30 := by
  have h := (calculate_mld_spec [10, 101/10, 12, 13] [(5 : ℚ), 15, 30, 60]
    (by decide) (by decide)).2.1 2 (by decide) (by decide) (by norm_num)
  refine Eq.trans (h ?_) (by norm_num)
  intro j hjT hj2
  interval_cases j <;> norm_num [abs_le]

/-! ## Derived parameters (`_calculate_derived_parameters`, netcdf_processor.py lines 77-116)

The `gsw` seawater library is an external black box applied elementwise to
equal-length arrays; it is embedded as an arbitrary triple of total
rational functions, so every theorem below holds for any behaviour of the
library.  NaN handling, joint-validity masking, the sample-count guard,
the mixed-layer depth and the maximum depth are all taken from the source.
The `except` clause of the source catches exactly the exceptions the
numeric conversion can raise on list inputs: a mask of mismatched shapes
(`ValueError` from combining the three boolean arrays) or an array holding
a Python `None` (`TypeError` from `np.isnan` on an object-dtype array);
`convError` decides that condition. -/

/-- The three TEOS-10 conversions used by the calculator, as opaque total
functions: `SA_from_SP (SP) (p) (lon) (lat)`, `CT_from_t (SA) (t) (p)`,
`sigma0 (SA) (CT)`. -/
structure GSW where
  SA_from_SP : ℚ → ℚ → ℚ → ℚ → ℚ
  CT_from_t : ℚ → ℚ → ℚ → ℚ
  sigma0 : ℚ → ℚ → ℚ

/-- Input slice of the profile dict the calculator reads (lines 80-84). -/
structure RawProfile where
  temperature : List PyVal
  salinity : List PyVal
  pressure_levels : List PyVal
  latitude : ℚ
  longitude : ℚ

/-- Output dict of the calculator: the fallback carries only the two zero
scalars, the full result also the three derived sequences. -/
structure Derived where
  max_depth : ℚ
  mixed_layer_depth : ℚ
  absolute_salinity : Option (List ℚ)
  conservative_temperature : Option (List ℚ)
  potential_density : Option (List ℚ)
deriving DecidableEq, Repr

/-- Line 90/116: `{'max_depth': 0, 'mixed_layer_depth': 0}`. -/
def fallbackDerived : Derived :=
  { max_depth := 0, mixed_layer_depth := 0,
    absolute_salinity := Option.none,
    conservative_temperature := Option.none,
    potential_density := Option.none }

/-- Pointwise combination of three equal-length arrays, the numpy
elementwise evaluation model. -/
def zipWith3 (f : ℚ → ℚ → ℚ → ℚ) : List ℚ → List ℚ → List ℚ → List ℚ
  | a :: as, b :: bs, c :: cs => f a b c :: zipWith3 f as bs cs
  | _, _, _ => []

/-- Line 87: `~(np.isnan(temp) | np.isnan(sal) | np.isnan(pres))`, the
joint validity mask over the three converted arrays. -/
def validMask : List PyVal → List PyVal → List PyVal → List Bool
  | t :: ts, s :: ss, p :: ps =>
    (!(isnanB t || isnanB s || isnanB p)) :: validMask ts ss ps
  | _, _, _ => []

/-- Boolean-mask indexing `arr[mask]` on a converted float array. -/
def maskFilter (mask : List Bool) (l : List PyVal) : List ℚ :=
  ((mask.zip l).filter (fun x => x.1)).map (fun x => toQ x.2)

/-- `np.max` on a nonempty float array (0 on the empty array, which the
sample-count guard makes unreachable). -/
def npmax : List ℚ → ℚ
  | [] => 0
  | x :: xs => xs.foldl max x

/-- Whether the numeric conversion and masking of lines 80-87 raise: true
when the three arrays do not share one length or some element is a Python
`None` rather than a float. -/
def convError (pr : RawProfile) : Bool :=
  !(pr.temperature.length == pr.salinity.length
      && pr.salinity.length == pr.pressure_levels.length)
    || (pr.temperature ++ pr.salinity ++ pr.pressure_levels).any
        (fun v => v == PyVal.absent)

/-- Line 87: the joint validity mask `valid_mask` of the profile. -/
def jointMask (pr : RawProfile) : List Bool :=
  validMask pr.temperature pr.salinity pr.pressure_levels

/-- Line 92: `temp_clean = temp[valid_mask]`. -/
def temp_clean (pr : RawProfile) : List ℚ :=
  maskFilter (jointMask pr) pr.temperature

/-- Line 93: `sal_clean = sal[valid_mask]`. -/
def sal_clean (pr : RawProfile) : List ℚ :=
  maskFilter (jointMask pr) pr.salinity

/-- Line 94: `pres_clean = pres[valid_mask]`. -/
def pres_clean (pr : RawProfile) : List ℚ :=
  maskFilter (jointMask pr) pr.pressure_levels

/-- Line 97: `SA = gsw.SA_from_SP(sal_clean, pres_clean, lon, lat)`,
elementwise over the two equal-length arrays with scalar lon/lat. -/
def SA_of (g : GSW) (pr : RawProfile) : List ℚ :=
  List.zipWith (fun s p => g.SA_from_SP s p pr.longitude pr.latitude)
    (sal_clean pr) (pres_clean pr)

/-- Line 98: `CT = gsw.CT_from_t(SA, temp_clean, pres_clean)`. -/
def CT_of (g : GSW) (pr : RawProfile) : List ℚ :=
  zipWith3 (fun sa t p => g.CT_from_t sa t p) (SA_of g pr) (temp_clean pr)
    (pres_clean pr)

/-- Line 101: `sigma0 = gsw.sigma0(SA, CT)`. -/
def sigma0_of (g : GSW) (pr : RawProfile) : List ℚ :=
  List.zipWith g.sigma0 (SA_of g pr) (CT_of g pr)

/-- `_calculate_derived_parameters` over an arbitrary seawater library
`g`: on a conversion exception or fewer than 3 jointly-valid samples,
return the zero-valued fallback (lines 89-90 and 114-116); otherwise
filter the three arrays by the joint mask, apply the three conversions
elementwise, and compute mixed-layer depth and maximum depth (lines
92-112). -/
def calculate_derived_parameters (g : GSW) (pr : RawProfile) : Derived :=
  if convError pr then fallbackDerived
  else if (jointMask pr).count true < 3 then fallbackDerived
  else
    { max_depth := npmax (pres_clean pr),
      mixed_layer_depth := calculate_mld (temp_clean pr) (pres_clean pr),
      absolute_salinity := some (SA_of g pr),
      conservative_temperature := some (CT_of g pr),
      potential_density := some (sigma0_of g pr) }

theorem maskFilter_cons (b : Bool) (bs : List Bool) (x : PyVal) (xs : List PyVal) :
    maskFilter (b :: bs) (x :: xs) =
      if b then toQ x :: maskFilter bs xs else maskFilter bs xs := by
  cases b <;> simp [maskFilter]

theorem maskFilter_length : ∀ (mask : List Bool) (l : List PyVal),
    mask.length = l.length → (maskFilter mask l).length = mask.count true := by
  intro mask
  induction mask with
  | nil => intro l _; simp [maskFilter]
  | cons b bs ih =>
    intro l h
    cases l with
    | nil => simp at h
    | cons x xs =>
      simp only [List.length_cons, Nat.add_right_cancel_iff] at h
      rw [maskFilter_cons]
      cases b <;> simp [List.count_cons, ih xs h]

theorem validMask_length : ∀ (T S P : List PyVal),
    T.length = S.length → S.length = P.length →
    (validMask T S P).length = T.length := by
  intro T
  induction T with
  | nil => intro S P _ _; simp [validMask]
  | cons t ts ih =>
    intro S P h1 h2
    cases S with
    | nil => simp at h1
    | cons s ss =>
      cases P with
      | nil => rw [← h1] at h2; simp at h2
      | cons p ps =>
        simp only [List.length_cons, Nat.add_right_cancel_iff] at h1 h2
        simp [validMask, ih ss ps h1 h2]

theorem zipWith3_length (f : ℚ → ℚ → ℚ → ℚ) : ∀ (a b c : List ℚ),
    a.length = b.length → b.length = c.length →
    (zipWith3 f a b c).length = a.length := by
  intro a
  induction a with
  | nil => intro b c _ _; simp [zipWith3]
  | cons x xs ih =>
    intro b c h1 h2
    cases b with
    | nil => simp at h1
    | cons y ys =>
      cases c with
      | nil => rw [← h1] at h2; simp at h2
      | cons z zs =>
        simp only [List.length_cons, Nat.add_right_cancel_iff] at h1 h2
        simp [zipWith3, ih ys zs h1 h2]

theorem foldl_max_spec : ∀ (xs : List ℚ) (a : ℚ),
    a ≤ xs.foldl max a ∧ (∀ x ∈ xs, x ≤ xs.foldl max a) ∧
      (xs.foldl max a = a ∨ xs.foldl max a ∈ xs) := by
  intro xs
  induction xs with
  | nil => intro a; simp
  | cons y ys ih =>
    intro a
    have h := ih (max a y)
    refine ⟨le_trans (le_max_left a y) h.1, ?_, ?_⟩
    · intro x hx
      rcases List.mem_cons.mp hx with rfl | hxs
      · exact le_trans (le_max_right a x) h.1
      · exact h.2.1 x hxs
    · rcases h.2.2 with heq | hmem
      · rcases max_choice a y with hma | hmy
        · left; rw [List.foldl_cons, heq, hma]
        · right; rw [List.foldl_cons, heq, hmy]
          exact List.mem_cons_self _ _
      · right; exact List.mem_cons_of_mem _ hmem

theorem npmax_is_max (l : List ℚ) (hne : l ≠ []) :
    npmax l ∈ l ∧ ∀ x ∈ l, x ≤ npmax l := by
  cases l with
  | nil => exact absurd rfl hne
  | cons x xs =>
    have h := foldl_max_spec xs x
    refine ⟨?_, ?_⟩
    · rcases h.2.2 with heq | hmem
      · simp [npmax, heq]
      · exact List.mem_cons_of_mem _ (by simpa [npmax] using hmem)
    · intro y hy
      rcases List.mem_cons.mp hy with rfl | hys
      · simpa [npmax] using h.1
      · simpa [npmax] using h.2.1 y hys

/-- C4: the calculator returns the zero-valued fallback, never propagating
an error, in exactly two situations — a conversion exception (mismatched
array shapes or a non-float element) or fewer than 3 jointly-valid samples
after masking — and in every other case it returns the full set of derived
fields (the three derived sequences are all present). -/
theorem calculate_derived_parameters_fallback_iff (g : GSW) (pr : RawProfile) :
    (calculate_derived_parameters g pr = fallbackDerived ↔
      (convError pr = true ∨ (jointMask pr).count true < 3)) ∧
    (calculate_derived_parameters g pr ≠ fallbackDerived →
      (calculate_derived_parameters g pr).absolute_salinity.isSome = true ∧
      (calculate_derived_parameters g pr).conservative_temperature.isSome = true ∧
      (calculate_derived_parameters g pr).potential_density.isSome = true) := by
  simp only [calculate_derived_parameters]
  split_ifs with h1 h2
  · simp [h1]
  · simp [h1, h2]
  · refine ⟨⟨fun heq => ?_, fun hor => ?_⟩, fun _ => by simp⟩
    · have hproj := congrArg Derived.absolute_salinity heq
      simp [fallbackDerived] at hproj
    · rcases hor with hc | hlt
      · exact absurd hc (by simpa using h1)
      · exact absurd hlt h2

theorem calculate_derived_parameters_full (g : GSW) (pr : RawProfile)
    (hconv : convError pr = false)
    (hcount : 3 ≤ (jointMask pr).count true) :
    calculate_derived_parameters g pr =
      { max_depth := npmax (pres_clean pr),
        mixed_layer_depth := calculate_mld (temp_clean pr) (pres_clean pr),
        absolute_salinity := some (SA_of g pr),
        conservative_temperature := some (CT_of g pr),
        potential_density := some (sigma0_of g pr) } := by
  unfold calculate_derived_parameters
  rw [if_neg (by simp [hconv]), if_neg (by omega)]

/-- C5: on a profile whose three measurement sequences share one length
(and convert cleanly) with at least 3 jointly-valid samples, the
calculator keeps exactly the jointly-valid indices consistently across
the three arrays: every filtered sequence and every derived sequence has
length equal to the number of jointly-valid indices, and the reported
maximum depth is the maximum of the jointly-valid pressure values
(attained in that filtered sequence). -/
theorem calculate_derived_parameters_alignment (g : GSW) (pr : RawProfile)
    (hconv : convError pr = false)
    (hcount : 3 ≤ (jointMask pr).count true) :
    (temp_clean pr).length = (jointMask pr).count true ∧
    (sal_clean pr).length = (jointMask pr).count true ∧
    (pres_clean pr).length = (jointMask pr).count true ∧
    (calculate_derived_parameters g pr).absolute_salinity = some (SA_of g pr) ∧
    (calculate_derived_parameters g pr).conservative_temperature = some (CT_of g pr) ∧
    (calculate_derived_parameters g pr).potential_density = some (sigma0_of g pr) ∧
    (SA_of g pr).length = (jointMask pr).count true ∧
    (CT_of g pr).length = (jointMask pr).count true ∧
    (sigma0_of g pr).length = (jointMask pr).count true ∧
    (calculate_derived_parameters g pr).max_depth ∈ pres_clean pr ∧
    ∀ x ∈ pres_clean pr, x ≤ (calculate_derived_parameters g pr).max_depth := by
  have hTS : pr.temperature.length = pr.salinity.length := by
    by_contra hne
    simp [convError, hne] at hconv
  have hSP : pr.salinity.length = pr.pressure_levels.length := by
    by_contra hne
    simp [convError, hne] at hconv
  have hmask : (jointMask pr).length = pr.temperature.length :=
    validMask_length _ _ _ hTS hSP
  have hT : (temp_clean pr).length = (jointMask pr).count true :=
    maskFilter_length _ _ hmask
  have hS : (sal_clean pr).length = (jointMask pr).count true :=
    maskFilter_length _ _ (by rw [hmask, hTS])
  have hP : (pres_clean pr).length = (jointMask pr).count true :=
    maskFilter_length _ _ (by rw [hmask, hTS, hSP])
  have hSA : (SA_of g pr).length = (jointMask pr).count true := by
    unfold SA_of
    rw [List.length_zipWith, hS, hP, min_self]
  have hCT : (CT_of g pr).length = (jointMask pr).count true := by
    unfold CT_of
    rw [zipWith3_length _ _ _ _ (by rw [hSA, hT]) (by rw [hT, hP]), hSA]
  have hSG : (sigma0_of g pr).length = (jointMask pr).count true := by
    unfold sigma0_of
    rw [List.length_zipWith, hSA, hCT, min_self]
  have hfull := calculate_derived_parameters_full g pr hconv hcount
  have hPne : pres_clean pr ≠ [] := by
    intro hnil
    rw [hnil] at hP
    simp at hP
    omega
  have hmax := npmax_is_max (pres_clean pr) hPne
  rw [hfull]
  exact ⟨hT, hS, hP, rfl, rfl, rfl, hSA, hCT, hSG, hmax.1, hmax.2⟩

/-- A trivial seawater library used to instantiate theorems that hold for
every library. -/
def gswZero : GSW :=
  { SA_from_SP := fun _ _ _ _ => 0, CT_from_t := fun _ _ _ => 0,
    sigma0 := fun _ _ => 0 }

/-- The scenario profile of the spec: pressure [2.5, 10, 20, 50],
temperature [28.0, 27.9, 26.0, 20.0], salinity [34.2, 34.3, 34.8, 35.1],
latitude 2.5, longitude 87.3. -/
def demoProfile : RawProfile :=
  { temperature := [PyVal.num 28, PyVal.num (279/10), PyVal.num 26, PyVal.num 20],
    salinity := [PyVal.num (171/5), PyVal.num (343/10), PyVal.num (174/5),
      PyVal.num (351/10)],
    pressure_levels := [PyVal.num (5/2), PyVal.num 10, PyVal.num 20, PyVal.num 50],
    latitude := 5/2, longitude := 873/10 }

/-- Witness for C5 at the scenario profile (all 4 samples jointly valid)
under the trivial seawater library. -/
theorem calculate_derived_parameters_alignment_witness :
    (temp_clean demoProfile).length = (jointMask demoProfile).count true ∧
    (sal_clean demoProfile).length = (jointMask demoProfile).count true ∧
    (pres_clean demoProfile).length = (jointMask demoProfile).count true ∧
    (calculate_derived_parameters gswZero demoProfile).absolute_salinity
      = some (SA_of gswZero demoProfile) ∧
    (calculate_derived_parameters gswZero demoProfile).conservative_temperature
      = some (CT_of gswZero demoProfile) ∧
    (calculate_derived_parameters gswZero demoProfile).potential_density
      = some (sigma0_of gswZero demoProfile) ∧
    (SA_of gswZero demoProfile).length = (jointMask demoProfile).count true ∧
    (CT_of gswZero demoProfile).length = (jointMask demoProfile).count true ∧
    (sigma0_of gswZero demoProfile).length = (jointMask demoProfile).count true ∧
    (calculate_derived_parameters gswZero demoProfile).max_depth
      ∈ pres_clean demoProfile ∧
    ∀ x ∈ pres_clean demoProfile,
      x ≤ (calculate_derived_parameters gswZero demoProfile).max_depth :=
  calculate_derived_parameters_alignment gswZero demoProfile (by decide) (by decide)

/-- C3: on the scenario profile the pipeline reports the Indian Ocean
region, mixed-layer depth 20 (the pressure at the first index where the
temperature departs from 28.0 by more than 0.2), and maximum depth 50 —
for every behaviour of the seawater library. -/
theorem temp_clean_demo : temp_clean demoProfile = [28, 279/10, 26, 20] := by
  simp [temp_clean, jointMask, validMask, maskFilter, demoProfile, isnanB, toQ]

theorem pres_clean_demo : pres_clean demoProfile = [5/2, 10, 20, 50] := by
  simp [pres_clean, jointMask, validMask, maskFilter, demoProfile, isnanB, toQ]

theorem demoProfile_pipeline (g : GSW) :
    determine_ocean_region demoProfile.latitude demoProfile.longitude
      = "Indian Ocean" ∧
    (calculate_derived_parameters g demoProfile).mixed_layer_depth = 20 ∧
    (calculate_derived_parameters g demoProfile).max_depth = 50 := by
  have hfull := calculate_derived_parameters_full g demoProfile (by decide) (by decide)
  refine ⟨?_, ?_, ?_⟩
  · norm_num [determine_ocean_region, regionCascade, normalizeLon, demoProfile]
  · rw [hfull]
    show calculate_mld (temp_clean demoProfile) (pres_clean demoProfile) = 20
    rw [temp_clean_demo, pres_clean_demo,
      calculate_mld_cons 28 [279/10, 26, 20] [(5:ℚ)/2, 10, 20, 50] (by norm_num)]
    have hz : ([28, (279:ℚ)/10, 26, 20].zip [(5:ℚ)/2, 10, 20, 50])
        = [(28, 5/2), (279/10, 10), (26, 20), (20, 50)] := by simp
    rw [hz]
    have hscan : mldScan 28 [((28:ℚ), (5:ℚ)/2), (279/10, 10), (26, 20), (20, 50)]
        = some 20 := by
      simp only [mldScan]
      rw [if_neg (by norm_num), if_neg (by norm_num [abs_of_nonneg]),
        if_pos (by norm_num)]
    rw [hscan]
  · rw [hfull]
    show npmax (pres_clean demoProfile) = 50
    rw [pres_clean_demo]
    norm_num [npmax, max_def]

/-! ## Profile sanitizer (`_clean_profile_data`, netcdf_processor.py lines 152-161)

The processed profile dict has a fixed key set; string- and integer-valued
entries are never `pd.isna` and the loop leaves them unchanged, every
other scalar entry is a `PyVal`, and every list entry is sanitized
elementwise. -/

/-- The profile dict as built by `process_argo_file` (lines 31-54). -/
structure ProfileRecord where
  platform_number : String
  cycle_number : Int
  latitude : PyVal
  longitude : PyVal
  measurement_date : PyVal
  pressure_levels : List PyVal
  temperature : List PyVal
  salinity : List PyVal
  temp_qc : List PyVal
  psal_qc : List PyVal
  absolute_salinity : List PyVal
  conservative_temperature : List PyVal
  potential_density : List PyVal
  mixed_layer_depth : PyVal
  max_depth : PyVal
  ocean_region : String
deriving DecidableEq, Repr

/-- Line 157/159: `None if pd.isna(x) else x` on one value. -/
def cleanVal (v : PyVal) : PyVal :=
  if v.isna then PyVal.absent else v

/-- `_clean_profile_data`: the loop over the dict items, elementwise on
list values and directly on scalar values; strings and integers are not
`pd.isna` and stay as they are. -/
def clean_profile_data (r : ProfileRecord) : ProfileRecord :=
  { r with
    latitude := cleanVal r.latitude
    longitude := cleanVal r.longitude
    measurement_date := cleanVal r.measurement_date
    pressure_levels := r.pressure_levels.map cleanVal
    temperature := r.temperature.map cleanVal
    salinity := r.salinity.map cleanVal
    temp_qc := r.temp_qc.map cleanVal
    psal_qc := r.psal_qc.map cleanVal
    absolute_salinity := r.absolute_salinity.map cleanVal
    conservative_temperature := r.conservative_temperature.map cleanVal
    potential_density := r.potential_density.map cleanVal
    mixed_layer_depth := cleanVal r.mixed_layer_depth
    max_depth := cleanVal r.max_depth }

/-- Whether a sequence holds a NaN sentinel. -/
def hasNan (l : List PyVal) : Bool :=
  l.any isnanB

/-- Whether any field of the record holds a NaN sentinel. -/
def recordHasNan (r : ProfileRecord) : Bool :=
  isnanB r.latitude || isnanB r.longitude || isnanB r.measurement_date ||
  hasNan r.pressure_levels || hasNan r.temperature || hasNan r.salinity ||
  hasNan r.temp_qc || hasNan r.psal_qc || hasNan r.absolute_salinity ||
  hasNan r.conservative_temperature || hasNan r.potential_density ||
  isnanB r.mixed_layer_depth || isnanB r.max_depth

theorem cleanVal_not_nan (v : PyVal) : isnanB (cleanVal v) = false := by
  cases v <;> simp [cleanVal, PyVal.isna, isnanB]

theorem cleanVal_idem (v : PyVal) : cleanVal (cleanVal v) = cleanVal v := by
  cases v <;> simp [cleanVal, PyVal.isna]

theorem hasNan_map_cleanVal (l : List PyVal) : hasNan (l.map cleanVal) = false := by
  simp [hasNan, List.any_map, Function.comp, cleanVal_not_nan]

/-- C6: the sanitizer is NaN-free and idempotent — one application leaves
no NaN in any sequence or scalar field (every NaN becomes the explicit
absence marker), and a second application changes nothing. -/
theorem clean_profile_data_spec (r : ProfileRecord) :
    recordHasNan (clean_profile_data r) = false ∧
    clean_profile_data (clean_profile_data r) = clean_profile_data r := by
  constructor
  · simp [recordHasNan, clean_profile_data, cleanVal_not_nan, hasNan_map_cleanVal]
  · simp [clean_profile_data, cleanVal_idem, List.map_map, Function.comp]

/-! ## Profile extractor (`process_argo_file`, netcdf_processor.py lines 24-66)

A `Dataset` is the read scientific file: each named variable is present or
absent.  In the source, access to an absent required variable raises
inside the `try`, the handler logs and returns `None`; the optional
variables are guarded by `in ds` checks with defaults.  Timestamps are
modelled as rational day counts with the 1950-01-01 epoch at 0, so the
stored day offset is the timestamp itself and a missing offset falls back
to the wall-clock argument `now`. -/

structure Dataset where
  PLATFORM_NUMBER : Option String
  CYCLE_NUMBER : Option Int
  LATITUDE : Option ℚ
  LONGITUDE : Option ℚ
  JULD : Option PyVal
  PRES : Option (List PyVal)
  TEMP : Option (List PyVal)
  PSAL : Option (List PyVal)
  TEMP_QC : Option (List PyVal)
  PSAL_QC : Option (List PyVal)

/-- `_extract_platform_number` (lines 62-66). -/
def extract_platform_number (ds : Dataset) : String :=
  ds.PLATFORM_NUMBER.getD "UNKNOWN"

/-- `_extract_date` (lines 68-75): the day offset from the 1950-01-01
epoch when present, the current wall clock `now` otherwise. -/
def extract_date (ds : Dataset) (now : ℚ) : PyVal :=
  match ds.JULD with
  | some v => v
  | Option.none => PyVal.num now

/-- `process_argo_file`: fail (return `None`) when a required variable
(latitude, longitude, pressure, temperature or salinity array) is absent;
otherwise build the profile dict with defaults for the optional
variables, add the derived parameters and the ocean region, and sanitize
it (lines 24-60). -/
def process_argo_file (g : GSW) (now : ℚ) (ds : Dataset) : Option ProfileRecord :=
  match ds.LATITUDE, ds.LONGITUDE, ds.PRES, ds.TEMP, ds.PSAL with
  | some lat, some lon, some pres, some temp, some psal =>
    let derived := calculate_derived_parameters g
      { temperature := temp, salinity := psal, pressure_levels := pres,
        latitude := lat, longitude := lon }
    some (clean_profile_data
      { platform_number := extract_platform_number ds
        cycle_number := ds.CYCLE_NUMBER.getD 0
        latitude := PyVal.num lat
        longitude := PyVal.num lon
        measurement_date := extract_date ds now
        pressure_levels := pres
        temperature := temp
        salinity := psal
        temp_qc := ds.TEMP_QC.getD []
        psal_qc := ds.PSAL_QC.getD []
        absolute_salinity := (derived.absolute_salinity.getD []).map PyVal.num
        conservative_temperature :=
          (derived.conservative_temperature.getD []).map PyVal.num
        potential_density := (derived.potential_density.getD []).map PyVal.num
        mixed_layer_depth := PyVal.num derived.mixed_layer_depth
        max_depth := PyVal.num derived.max_depth
        ocean_region := determine_ocean_region lat lon })
  | _, _, _, _, _ => Option.none

/-- C7: the extractor produces a profile exactly when all required
variables are present, and defaults the platform identifier to "UNKNOWN"
and the cycle number to 0 when those optional variables are absent. -/
theorem process_argo_file_spec (g : GSW) (now : ℚ) (ds : Dataset) :
    ((process_argo_file g now ds).isSome = true ↔
      (ds.LATITUDE.isSome = true ∧ ds.LONGITUDE.isSome = true ∧
       ds.PRES.isSome = true ∧ ds.TEMP.isSome = true ∧ ds.PSAL.isSome = true)) ∧
    (∀ r, process_argo_file g now ds = some r →
      ((ds.PLATFORM_NUMBER = Option.none → r.platform_number = "UNKNOWN") ∧
       (ds.CYCLE_NUMBER = Option.none → r.cycle_number = 0))) := by
  obtain ⟨pn, cn, la, lo, ju, pre, te, ps, tq, pq⟩ := ds
  cases la <;> cases lo <;> cases pre <;> cases te <;> cases ps <;>
    simp [process_argo_file, clean_profile_data, extract_platform_number]
  exact ⟨fun hpn => by rw [hpn]; rfl, fun hcn => by rw [hcn]; rfl⟩

/-! ## Ingestion orchestrator (`ingest_directory` / `ingest_single_file`,
data_ingestion.py lines 24-86)

Per file, the environment decides three outcomes: whether processing
yields a profile dict (`processResult`, `None` when
`process_argo_file` fails or raises), and whether each of the two
persistence operations would succeed when attempted
(`vector_db.add_profile` and `_save_to_database`; both catch their own
exceptions and return a boolean).  A persistence operation that is never
attempted has not succeeded. -/

structure FileJob where
  path : String
  processResult : Option ProfileRecord
  vectorOk : Bool
  sqlOk : Bool

/-- `ingest_single_file` (lines 61-86): false when processing yields no
profile, otherwise true exactly when both persistence operations
succeed; every exception is caught and also yields false. -/
def ingest_single_file (j : FileJob) : Bool :=
  match j.processResult with
  | Option.none => false
  | some _ => j.vectorOk && j.sqlOk

structure IngestSummary where
  processed : Nat
  errors : Nat
  files : List String
deriving DecidableEq, Repr

/-- The `for` loop of `ingest_directory` (lines 38-49) with its three
accumulators. -/
def ingestLoop : List FileJob → Nat → Nat → List String → IngestSummary
  | [], p, e, fs => { processed := p, errors := e, files := fs }
  | j :: rest, p, e, fs =>
    if ingest_single_file j then ingestLoop rest (p + 1) e (fs ++ [j.path])
    else ingestLoop rest p (e + 1) fs

/-- `ingest_directory` (lines 24-59): run the loop from empty counters;
the empty-directory early return (line 32) coincides with the loop on the
empty list. -/
def ingest_directory (jobs : List FileJob) : IngestSummary :=
  ingestLoop jobs 0 0 []

theorem ingestLoop_spec : ∀ (jobs : List FileJob) (p e : Nat) (fs : List String),
    ingestLoop jobs p e fs =
      { processed := p + (jobs.filter (fun j => ingest_single_file j)).length,
        errors := e + (jobs.filter (fun j => !(ingest_single_file j))).length,
        files := fs ++ (jobs.filter (fun j => ingest_single_file j)).map
          FileJob.path } := by
  intro jobs
  induction jobs with
  | nil => intro p e fs; simp [ingestLoop]
  | cons j rest ih =>
    intro p e fs
    by_cases hj : ingest_single_file j
    · rw [ingestLoop, if_pos hj, ih]
      simp [List.filter_cons, hj, List.append_assoc]
      omega
    · rw [ingestLoop, if_neg hj, ih]
      simp [List.filter_cons, hj]
      omega

theorem filter_length_partition (p : FileJob → Bool) : ∀ (l : List FileJob),
    (l.filter p).length + (l.filter (fun x => !(p x))).length = l.length := by
  intro l
  induction l with
  | nil => rfl
  | cons x xs ih =>
    by_cases hx : p x <;> simp [List.filter_cons, hx] <;> omega

/-- C8: the batch operation always returns a summary and never raises
past its boundary (it is a total function of the per-file outcomes): a
file is counted as processed, and appended to the files list, exactly
when its profile was produced and both persistence operations succeeded;
every other file increments the error count without halting the batch;
the files list has exactly the processed count of entries, and processed
plus errors equals the number of files. -/
theorem ingest_directory_spec (jobs : List FileJob) :
    (ingest_directory jobs).processed
        = (jobs.filter (fun j => ingest_single_file j)).length ∧
    (ingest_directory jobs).errors
        = (jobs.filter (fun j => !(ingest_single_file j))).length ∧
    (ingest_directory jobs).files
        = (jobs.filter (fun j => ingest_single_file j)).map FileJob.path ∧
    (ingest_directory jobs).files.length = (ingest_directory jobs).processed ∧
    (ingest_directory jobs).processed + (ingest_directory jobs).errors
        = jobs.length ∧
    ∀ j : FileJob, ingest_single_file j = true ↔
      (j.processResult.isSome = true ∧ j.vectorOk = true ∧ j.sqlOk = true) := by
  have h := ingestLoop_spec jobs 0 0 []
  rw [ingest_directory, h]
  refine ⟨by simp, by simp, by simp, by simp, ?_, ?_⟩
  · simpa using filter_length_partition (fun j => ingest_single_file j) jobs
  · intro j
    cases hp : j.processResult <;>
      simp [ingest_single_file, hp]

/-! ## Duplicate cleanup (`cleanup_duplicates`, data_ingestion.py lines 151-190)

`db` is a `sqlalchemy.orm.Session`.  `Session` objects expose no
attribute named `func` — the SQL function namespace is
`sqlalchemy.func` — so the very first query expression,
`db.func.count(ArgoProfile.profile_id)` on line 160, raises
`AttributeError` before any row is examined; the enclosing `except`
(lines 188-190) logs it and returns 0.  The grouping/ordering/deletion
logic written below that line (lines 157-186) is embedded separately as
`cleanupQueryLogic`, the number of rows it would delete had the query
been built with the proper `func`. -/

structure StoredProfile where
  profile_id : Nat
  platform_number : String
  cycle_number : Int
  measurement_date : Int
deriving DecidableEq, Repr

/-- The duplicate-detection key (platform_number, cycle_number). -/
def profKey (p : StoredProfile) : String × Int :=
  (p.platform_number, p.cycle_number)

/-- Lines 157-166: the keys held by more than one row. -/
def duplicateKeys (store : List StoredProfile) : List (String × Int) :=
  ((store.map profKey).dedup).filter
    (fun k => 1 < (store.filter (fun p => profKey p == k)).length)

/-- Insertion step of ordering rows by measurement date, newest first
(`order_by(measurement_date.desc())`). -/
def insertDesc (p : StoredProfile) : List StoredProfile → List StoredProfile
  | [] => [p]
  | q :: rest =>
    if q.measurement_date < p.measurement_date then p :: q :: rest
    else q :: insertDesc p rest

/-- Rows ordered by measurement date, newest first. -/
def sortDesc : List StoredProfile → List StoredProfile
  | [] => []
  | p :: rest => insertDesc p (sortDesc rest)

/-- Lines 170-180 for one key: every row after the first of the
date-descending order is deleted. -/
def removedFor (store : List StoredProfile) (k : String × Int) : Nat :=
  ((sortDesc (store.filter (fun p => profKey p == k))).drop 1).length

/-- Lines 170-180 for one key: the row the cleanup retains. -/
def retainedFor (store : List StoredProfile) (k : String × Int) :
    Option StoredProfile :=
  (sortDesc (store.filter (fun p => profKey p == k))).head?

/-- Lines 157-186: the removal count the written query logic would
produce. -/
def cleanupQueryLogic (store : List StoredProfile) : Nat :=
  ((duplicateKeys store).map (removedFor store)).sum

/-- Whether a `sqlalchemy.orm.Session` object has an attribute `func`:
it does not (that name lives in `sqlalchemy.sql`), so line 160 raises
`AttributeError`. -/
def sessionHasFuncAttribute : Bool := false

/-- `cleanup_duplicates` (lines 151-190) as it actually executes: the
body raises on its first attribute access and the handler returns 0. -/
def cleanup_duplicates (store : List StoredProfile) : Nat :=
  if sessionHasFuncAttribute then cleanupQueryLogic store else 0

def profEarlier : StoredProfile :=
  { profile_id := 1, platform_number := "2900123", cycle_number := 10,
    measurement_date := 100 }

def profLater : StoredProfile :=
  { profile_id := 2, platform_number := "2900123", cycle_number := 10,
    measurement_date := 200 }

/-- The scenario store: two profiles sharing platform "2900123" and
cycle 10, with different measurement dates. -/
def demoStore : List StoredProfile := [profEarlier, profLater]

/-- C9 (the code at the claimed scenario): on a store holding exactly two
profiles with platform "2900123" and cycle 10 and different dates,
`cleanup_duplicates` removes 0 — not 1 — because `db.func` raises
`AttributeError` and the handler swallows it; the query logic written
below the failing line would have removed exactly 1 and retained the
later-dated profile. -/
theorem cleanup_duplicates_demo :
    cleanup_duplicates demoStore = 0 ∧
    cleanupQueryLogic demoStore = 1 ∧
    retainedFor demoStore ("2900123", 10) = some profLater := by
  refine ⟨rfl, ?_, ?_⟩ <;> decide
